import Mathlib

/-!
Shallow embedding of the two ROS nodes of the hsa-planar-control repository:
the static inversion planning node (setpoint sequencer) and the model-based
control node (control loop orchestrator, state estimator, coordinate mapper).
Numeric values are modelled as exact rationals; the external numerical
collaborators (static inversion solver, controller laws, saturator, spline
differentiation) are abstracted as function parameters, since they live in
modules outside the two node files and the properties under study quantify
over their outputs.
-/

namespace HsaPlanarControl

/-- Configuration / pose triple (kappa_b, sigma_sh, sigma_a) or (x, y, theta). -/
abbrev Vec3 := ℚ × ℚ × ℚ

/-- Actuation coordinates: 2-vector of twist angles. -/
abbrev Phi := ℚ × ℚ

/-- Four motor angles, as read from or commanded to the dynamixel motors. -/
structure MotorAngles where
  m0 : ℚ
  m1 : ℚ
  m2 : ℚ
  m3 : ℚ
deriving DecidableEq

/-- Handedness data used by the coordinate mapper: the control handedness
pair of the first segment (row 0 of the model parameter h) and the four
per-rod handedness signs of the actuation base node. -/
structure Handedness where
  ch0 : ℚ
  ch1 : ℚ
  rh0 : ℚ
  rh1 : ℚ
  rh2 : ℚ
  rh3 : ℚ
deriving DecidableEq

/-- PlanarSetpoint message: desired configuration q_des (with a header stamp),
desired end-effector pose chiee_des, steady-state actuation phi_ss and the
solver optimality error. -/
structure PlanarSetpointMsg where
  stamp : ℚ
  q_des : Vec3
  chiee_des : Vec3
  phi_ss : Phi
  optimality_error : ℚ
deriving DecidableEq

/-- Output of one invocation of the static inversion planning function. -/
structure PlannerResult where
  chiee_des : Vec3
  q_des : Vec3
  phi_ss : Phi
  optimality_error : ℚ

/-- Mutable state of the StaticInversionPlanningNode relevant to its timer:
the list of desired end-effector positions and the current setpoint index. -/
structure SequencerState where
  pee_des_sps : List (ℚ × ℚ)
  setpoint_idx : ℕ

/-- Indexing a jax array with a non-negative out-of-range index returns the
last element: jax gather clamps out-of-bounds indices instead of raising.
This models the read pee_des_sps[setpoint_idx] in the timer callback. -/
def jaxIndex (l : List (ℚ × ℚ)) (i : ℕ) : ℚ × ℚ :=
  l.getD (min i (l.length - 1)) (0, 0)

/-- Builds the PlanarSetpoint message published by the sequencer from a
planner result, stamped with the current clock time. -/
def mkSetpointMsg (now : ℚ) (res : PlannerResult) : PlanarSetpointMsg :=
  { stamp := now
    q_des := res.q_des
    chiee_des := res.chiee_des
    phi_ss := res.phi_ss
    optimality_error := res.optimality_error }

/-- StaticInversionPlanningNode.timer_callback: invoke the planning function
at the current index; if the optimality error exceeds 1e-3, skip publishing
and advance the index; otherwise publish the setpoint and advance the index.
Returns the new state and the published message, if any. -/
def timer_callback (plan : ℚ × ℚ → PlannerResult) (now : ℚ)
    (s : SequencerState) : SequencerState × Option PlanarSetpointMsg :=
  let res := plan (jaxIndex s.pee_des_sps s.setpoint_idx)
  if res.optimality_error > 1e-3 then
    ({ s with setpoint_idx := s.setpoint_idx + 1 }, none)
  else
    ({ s with setpoint_idx := s.setpoint_idx + 1 }, some (mkSetpointMsg now res))

/-- ModelBasedControlNode.map_motor_angles_to_actuation_coordinates: the
actuation coordinates are the averaged, handedness-corrected twist angles of
an imagined rod on the left and right respectively. -/
def map_motor_angles_to_actuation_coordinates (hp : Handedness)
    (motor_angles : MotorAngles) : Phi :=
  ((motor_angles.m2 * hp.rh2 + motor_angles.m3 * hp.rh3) * hp.ch0 / 2,
   (motor_angles.m0 * hp.rh0 + motor_angles.m1 * hp.rh1) * hp.ch1 / 2)

/-- ModelBasedControlNode.map_actuation_coordinates_to_motor_angles: expands
the two actuation coordinates to four motor angles via the fixed handedness
signs. -/
def map_actuation_coordinates_to_motor_angles (hp : Handedness)
    (phi : Phi) : MotorAngles :=
  { m0 := phi.2 * hp.ch1 * hp.rh0
    m1 := phi.2 * hp.ch1 * hp.rh1
    m2 := phi.1 * hp.ch0 * hp.rh2
    m3 := phi.1 * hp.ch0 * hp.rh3 }

/-- A handedness sign is plus or minus one. -/
def IsSign (x : ℚ) : Prop := x = 1 ∨ x = -1

/-- Controller state: the named accumulators threaded through the controller
and the saturator; initialized as a zero integral error of the shape of phi. -/
abbrev CtrlState := ℚ × ℚ

/-- Mutable state of the ModelBasedControlNode touched by its callbacks. -/
structure ControlNodeState where
  q : Vec3
  q_d : Vec3
  t_hs : List ℚ
  q_hs : List Vec3
  q_des : Vec3
  chiee_des : Vec3
  phi_ss : Phi
  setpoint_msg : PlanarSetpointMsg
  controller_state : CtrlState

/-- Result of jnp.roll with shift -1 on a 1-d array: every element moves one
slot toward the front and the first element wraps around to the end. -/
def jnp_roll_neg1 {α : Type} (l : List α) : List α :=
  l.drop 1 ++ l.take 1

/-- Result of the jax update arr.at[-1].set(x): the last element is replaced
by x. -/
def set_last {α : Type} (l : List α) (x : α) : List α :=
  l.take (l.length - 1) ++ [x]

/-- ModelBasedControlNode.configuration_listener_callback: store the new
configuration and push (timestamp, configuration) into the history buffers
by rolling them one slot and overwriting the last entry. -/
def configuration_listener_callback (s : ControlNodeState) (t : ℚ)
    (q : Vec3) : ControlNodeState :=
  { s with
    q := q
    t_hs := set_last (jnp_roll_neg1 s.t_hs) t
    q_hs := set_last (jnp_roll_neg1 s.q_hs) q }

/-- ModelBasedControlNode.setpoint_listener_callback: overwrite the held
setpoint message wholesale and cache its fields. -/
def setpoint_listener_callback (s : ControlNodeState)
    (msg : PlanarSetpointMsg) : ControlNodeState :=
  { s with
    setpoint_msg := msg
    q_des := msg.q_des
    chiee_des := msg.chiee_des
    phi_ss := msg.phi_ss }

/-- ModelBasedControlNode.compute_q_d: if any history timestamp is still the
zero sentinel, return the held velocity and publish nothing; otherwise shift
the timestamps so the earliest is zero, fit a smoothing derivative per
configuration component (the external spline differentiator, abstracted as
the function fit giving the derivative at the most recent sample), publish
the estimate on the configuration velocity topic and return it. The second
component of the result is the telemetry message published, if any. -/
def compute_q_d (fit : List ℚ → List ℚ → ℚ) (s : ControlNodeState) :
    Vec3 × Option Vec3 :=
  if (0 : ℚ) ∈ s.t_hs then (s.q_d, none)
  else
    let t0 := s.t_hs.headD 0
    let ths := s.t_hs.map (fun t => t - t0)
    let qd : Vec3 := (fit (s.q_hs.map (fun q => q.1)) ths,
                      fit (s.q_hs.map (fun q => q.2.1)) ths,
                      fit (s.q_hs.map (fun q => q.2.2)) ths)
    (qd, some qd)

/-- Everything the control cycle publishes or commands, in cycle order:
velocity telemetry (if the buffer is full), present actuation coordinates,
the target handed to the controller (end-effector position, desired
configuration, steady-state actuation), the re-published setpoint, the
unsaturated and saturated control inputs, and the motor goal angles. -/
structure ControlOutputs where
  velocity_telemetry : Option Vec3
  actuation_coordinates : Phi
  target_used : (ℚ × ℚ) × Vec3 × Phi
  setpoint_repub : PlanarSetpointMsg
  unsaturated : Phi
  saturated : Phi
  motor_goal : MotorAngles

/-- ModelBasedControlNode.call_controller: one control cycle. Estimate the
velocity, map present motor angles to actuation coordinates, evaluate the
selected controller on the held target, re-publish the held setpoint with a
refreshed stamp, apply the handedness correction h to the controller output,
saturate, and map the saturated command to motor goal angles. The controller
law and the saturator are external modules, abstracted as control_fn and
saturate. Returns the updated node state and the emitted outputs. -/
def call_controller (fit : List ℚ → List ℚ → ℚ)
    (control_fn : ℚ → Vec3 → Vec3 → Phi → CtrlState → ℚ × ℚ → Vec3 → Phi →
      Phi × CtrlState)
    (saturate : Phi → CtrlState → Phi × CtrlState)
    (hp : Handedness) (present_motor_angles : MotorAngles) (t now : ℚ)
    (s : ControlNodeState) : ControlNodeState × ControlOutputs :=
  let qdres := compute_q_d fit s
  let phi := map_motor_angles_to_actuation_coordinates hp present_motor_angles
  let pee_des : ℚ × ℚ := (s.chiee_des.1, s.chiee_des.2.1)
  let ctrl := control_fn t s.q qdres.1 phi s.controller_state pee_des
    s.q_des s.phi_ss
  let repub := { s.setpoint_msg with stamp := now }
  let phi_des_h : Phi := (hp.ch0 * ctrl.1.1, hp.ch1 * ctrl.1.2)
  let satres := saturate phi_des_h ctrl.2
  ({ s with q_d := qdres.1, controller_state := satres.2 },
   { velocity_telemetry := qdres.2
     actuation_coordinates := phi
     target_used := (pee_des, s.q_des, s.phi_ss)
     setpoint_repub := repub
     unsaturated := phi_des_h
     saturated := satres.1
     motor_goal := map_actuation_coordinates_to_motor_angles hp satres.1 })

/-- Initial state of the ModelBasedControlNode with the default history
length 16: zero configuration and velocity, all-zero history buffers, the
slightly elongated desired configuration (0, 0, 0.04), zero desired
end-effector pose and steady-state actuation, a held setpoint message built
from those values with optimality error 0, and zero integral error. -/
def initControlNode (t0 : ℚ) : ControlNodeState :=
  { q := (0, 0, 0)
    q_d := (0, 0, 0)
    t_hs := List.replicate 16 0
    q_hs := List.replicate 16 (0, 0, 0)
    q_des := (0, 0, 0.04)
    chiee_des := (0, 0, 0)
    phi_ss := (0, 0)
    setpoint_msg := ⟨t0, (0, 0, 0.04), (0, 0, 0), (0, 0), 0⟩
    controller_state := (0, 0) }

/-- An event dispatched by the node executor: a configuration measurement, a
setpoint message, or a firing of the control timer (with present motor
angles and the two clock reads of the cycle). -/
inductive NodeEvent where
| config : ℚ → Vec3 → NodeEvent
| setpoint : PlanarSetpointMsg → NodeEvent
| cycle : MotorAngles → ℚ → ℚ → NodeEvent

/-- Whether an event is the arrival of a setpoint message. -/
def NodeEvent.isSetpointArrival : NodeEvent → Bool
| .setpoint _ => true
| _ => false

/-- Applies one event to the node state (discarding the published outputs). -/
def stepEvent (fit : List ℚ → List ℚ → ℚ)
    (control_fn : ℚ → Vec3 → Vec3 → Phi → CtrlState → ℚ × ℚ → Vec3 → Phi →
      Phi × CtrlState)
    (saturate : Phi → CtrlState → Phi × CtrlState) (hp : Handedness)
    (s : ControlNodeState) : NodeEvent → ControlNodeState
| .config t q => configuration_listener_callback s t q
| .setpoint m => setpoint_listener_callback s m
| .cycle ma t now => (call_controller fit control_fn saturate hp ma t now s).1

/-- Runs a sequence of events from a starting state. -/
def runEvents (fit : List ℚ → List ℚ → ℚ)
    (control_fn : ℚ → Vec3 → Vec3 → Phi → CtrlState → ℚ × ℚ → Vec3 → Phi →
      Phi × CtrlState)
    (saturate : Phi → CtrlState → Phi × CtrlState) (hp : Handedness)
    (s : ControlNodeState) (evs : List NodeEvent) : ControlNodeState :=
  evs.foldl (stepEvent fit control_fn saturate hp) s

/-- Runs a sequence of configuration measurement callbacks. -/
def run_config_callbacks (s : ControlNodeState) (ms : List (ℚ × Vec3)) :
    ControlNodeState :=
  ms.foldl (fun s m => configuration_listener_callback s m.1 m.2) s

/-- One ring-buffer push: roll the buffer one slot and overwrite the last
entry, as the configuration callback does on each history array. -/
def shiftAppend {α : Type} (b : List α) (x : α) : List α :=
  set_last (jnp_roll_neg1 b) x

/-- Controller type strings accepted by ModelBasedControlNode. -/
def controller_types : List String :=
  ["P_satI_D_collocated_form_plus_steady_state_actuation",
   "P_satI_D_collocated_form_plus_gravity_cancellation_elastic_compensation",
   "P_satI_D_plus_steady_state_actuation",
   "basic_operational_space_pid"]

/-- Dispatch of the controller_type parameter in ModelBasedControlNode's
constructor: each known name selects the corresponding control law (here
represented by the accepted name); any other value raises
NotImplementedError before the control timer is created, so the node never
starts its periodic loop. -/
def select_controller (controller_type : String) : Except String String :=
  if controller_type = "P_satI_D_collocated_form_plus_steady_state_actuation" then
    Except.ok controller_type
  else if controller_type =
      "P_satI_D_collocated_form_plus_gravity_cancellation_elastic_compensation" then
    Except.ok controller_type
  else if controller_type = "P_satI_D_plus_steady_state_actuation" then
    Except.ok controller_type
  else if controller_type = "basic_operational_space_pid" then
    Except.ok controller_type
  else
    Except.error ("Controller type " ++ controller_type ++ " not implemented")

/-- Manual setpoint list for the fpu material. -/
def fpu_pee_des_sps : List (ℚ × ℚ) :=
  [(0, 0.120), (0.00479247, 0.12781018), (-0.035, 0.122),
   (-0.00782133, 0.13024847), (0.00823294, 0.117643),
   (-0.01417039, 0.12388105), (0, 0.140), (0.02524261, 0.1304036),
   (-0.0059703, 0.13986947), (0.0073023, 0.11779653), (0.00567301, 0.1271345)]

/-- Manual setpoint list for the epu material. -/
def epu_pee_des_sps : List (ℚ × ℚ) :=
  [(-0.00479247, 0.12781018), (-0.00782133, 0.13024847),
   (0.00823294, 0.114643), (-0.0004829, 0.13777381), (-0.0059703, 0.13986947),
   (0.04237015, 0.11799567), (0.00567301, 0.1271345),
   (-0.00941272, 0.12826198), (-0.00638759, 0.1418955),
   (0.00232733, 0.14214571)]

/-- Result of a successful StaticInversionPlanningNode initialization: the
selected material, the target list, and the default planning frequency of
the timer that is created as the last step of the constructor. -/
structure PlanningNodeConfig where
  hsa_material : String
  pee_des_sps : List (ℚ × ℚ)
  default_planning_frequency : ℚ
deriving DecidableEq

/-- StaticInversionPlanningNode constructor dispatch on the enumerated
string parameters hsa_material, setpoint_mode and image_type, mirroring the
branch structure of the source: material is validated first; in manual mode
the material is re-examined to choose the solver strategy and target list;
in image mode the image type selects the image file and geometry, with the
image-to-trajectory conversion supplied externally as gen_traj. Every
unknown value raises a ValueError with a descriptive message before the
planning timer is created. -/
def init_planning_node (gen_traj : String → ℚ × ℚ → ℚ → List (ℚ × ℚ))
    (hsa_material setpoint_mode image_type : String) :
    Except String PlanningNodeConfig :=
  if hsa_material = "fpu" ∨ hsa_material = "epu" then
    if setpoint_mode = "manual" then
      if hsa_material = "fpu" then
        Except.ok ⟨hsa_material, fpu_pee_des_sps, 1 / 10⟩
      else if hsa_material = "epu" then
        Except.ok ⟨hsa_material, epu_pee_des_sps, 1 / 10⟩
      else
        Except.error ("Unknown HSA material: " ++ hsa_material)
    else if setpoint_mode = "image" then
      if image_type = "star" then
        Except.ok ⟨hsa_material, gen_traj image_type (0, 0.127) 0.013, 8⟩
      else if image_type = "tud-flame" then
        Except.ok ⟨hsa_material, gen_traj image_type (0, 0.130) 0.013, 8⟩
      else if image_type = "mit-csail" then
        Except.ok ⟨hsa_material, gen_traj image_type (0, 0.127) 0.017, 8⟩
      else
        Except.error ("Unknown image type: " ++ image_type)
    else
      Except.error ("Unknown setpoint mode: " ++ setpoint_mode)
  else
    Except.error ("Unknown HSA material: " ++ hsa_material)

/-- C1: on every sequencer tick the solver is invoked for the target at the
current index; a setpoint message is published if and only if the returned
optimality error does not exceed 1e-3; and the index advances by exactly 1
on every tick whether or not the setpoint was published. -/
theorem sequencer_tick_gate_and_advance (plan : ℚ × ℚ → PlannerResult)
    (now : ℚ) (s : SequencerState) :
    (timer_callback plan now s).1.setpoint_idx = s.setpoint_idx + 1 ∧
    (timer_callback plan now s).2 =
      (if (plan (jaxIndex s.pee_des_sps s.setpoint_idx)).optimality_error ≤ 1e-3
       then some (mkSetpointMsg now (plan (jaxIndex s.pee_des_sps s.setpoint_idx)))
       else none) := by
  unfold timer_callback
  by_cases h : (plan (jaxIndex s.pee_des_sps s.setpoint_idx)).optimality_error > 1e-3
  · simp [h, not_le.mpr h]
  · simp [h, not_lt.mp h]

/-- C4: once the sequencer index is at least the length of the target list,
the tick still evaluates the planner on a well-defined target, namely the
last element of the list (jax clamps the out-of-range index); the index
still advances by exactly 1 and the list is unchanged, so every later tick
re-solves the final target: no wraparound, no termination, no failure. -/
theorem sequencer_index_overflow_clamps (plan : ℚ × ℚ → PlannerResult)
    (now : ℚ) (s : SequencerState) (hne : s.pee_des_sps ≠ [])
    (hidx : s.pee_des_sps.length ≤ s.setpoint_idx) :
    jaxIndex s.pee_des_sps s.setpoint_idx = s.pee_des_sps.getLast hne ∧
    (timer_callback plan now s).1.setpoint_idx = s.setpoint_idx + 1 ∧
    (timer_callback plan now s).1.pee_des_sps = s.pee_des_sps := by
  refine ⟨?_, ?_, ?_⟩
  · have hlen : 0 < s.pee_des_sps.length := List.length_pos.mpr hne
    have hmin : min s.setpoint_idx (s.pee_des_sps.length - 1) =
        s.pee_des_sps.length - 1 := by omega
    rw [jaxIndex, hmin, List.getLast_eq_getElem]
    exact List.getD_eq_getElem _ _ _
  · unfold timer_callback
    by_cases h : (plan (jaxIndex s.pee_des_sps s.setpoint_idx)).optimality_error > 1e-3 <;>
      simp [h]
  · unfold timer_callback
    by_cases h : (plan (jaxIndex s.pee_des_sps s.setpoint_idx)).optimality_error > 1e-3 <;>
      simp [h]

/-- Witness for C4 at a concrete overflowing state. -/
theorem sequencer_index_overflow_clamps_witness :
    jaxIndex [(0, 0), (1, 2)] 5 = ((1 : ℚ), (2 : ℚ)) ∧
    (timer_callback (fun _ => ⟨(0, 0, 0), (0, 0, 0), (0, 0), 0⟩) 0
      ⟨[(0, 0), (1, 2)], 5⟩).1.setpoint_idx = 6 := by
  have h := sequencer_index_overflow_clamps
    (fun _ => ⟨(0, 0, 0), (0, 0, 0), (0, 0), 0⟩) 0
    ⟨[(0, 0), (1, 2)], 5⟩ (by decide) (by norm_num)
  exact ⟨h.1, h.2.1⟩

/-- C2: for every 2-vector phi and every assignment of plus/minus one to the
four per-rod handedness signs and the per-segment control handedness pair,
mapping phi to motor angles and back reproduces phi exactly. Both mappings
are total functions on rationals, with no failure modes. -/
theorem mapper_roundtrip_exact (hp : Handedness)
    (hc0 : IsSign hp.ch0) (hc1 : IsSign hp.ch1)
    (hr0 : IsSign hp.rh0) (hr1 : IsSign hp.rh1)
    (hr2 : IsSign hp.rh2) (hr3 : IsSign hp.rh3) (phi : Phi) :
    map_motor_angles_to_actuation_coordinates hp
      (map_actuation_coordinates_to_motor_angles hp phi) = phi := by
  obtain ⟨p0, p1⟩ := phi
  rcases hc0 with h1 | h1 <;> rcases hc1 with h2 | h2 <;>
    rcases hr0 with h3 | h3 <;> rcases hr1 with h4 | h4 <;>
    rcases hr2 with h5 | h5 <;> rcases hr3 with h6 | h6 <;>
    simp [map_motor_angles_to_actuation_coordinates,
      map_actuation_coordinates_to_motor_angles, h1, h2, h3, h4, h5, h6]

/-- Witness for C2 at a concrete mixed-sign handedness and concrete phi. -/
theorem mapper_roundtrip_exact_witness :
    map_motor_angles_to_actuation_coordinates ⟨1, -1, 1, -1, -1, 1⟩
      (map_actuation_coordinates_to_motor_angles ⟨1, -1, 1, -1, -1, 1⟩ (3, 5))
      = ((3 : ℚ), (5 : ℚ)) :=
  mapper_roundtrip_exact ⟨1, -1, 1, -1, -1, 1⟩ (Or.inl rfl) (Or.inr rfl)
    (Or.inl rfl) (Or.inr rfl) (Or.inr rfl) (Or.inl rfl) (3, 5)

/-- C3: whenever at least one stored history timestamp still equals the zero
sentinel, compute_q_d returns the previously held velocity unchanged and
publishes nothing, independently of the fitted derivative (the result does
not depend on the differentiator at all). -/
theorem estimate_velocity_cold_start (fit : List ℚ → List ℚ → ℚ)
    (s : ControlNodeState) (h : (0 : ℚ) ∈ s.t_hs) :
    compute_q_d fit s = (s.q_d, none) := by
  simp [compute_q_d, h]

/-- Witness for C3 at the freshly initialized node, whose buffer is all
zero sentinels. -/
theorem estimate_velocity_cold_start_witness :
    compute_q_d (fun _ _ => 1) (initControlNode 0) = (((0 : ℚ), (0 : ℚ), (0 : ℚ)), none) :=
  estimate_velocity_cold_start (fun _ _ => 1) (initControlNode 0) (by decide)

/-- C8 counterexample: an invocation of compute_q_d on a not-yet-full buffer
(the freshly initialized node) publishes nothing on the telemetry channel,
so not every invocation emits the velocity estimate. -/
theorem estimate_velocity_silent_on_cold_start :
    (compute_q_d (fun _ _ => 0) (initControlNode 1)).2 = none := by
  simp [compute_q_d, initControlNode, List.mem_replicate]

/-- C8 (amended): every invocation of compute_q_d on a fully populated
buffer (no timestamp equal to the zero sentinel) emits exactly the computed
velocity estimate on the telemetry channel; cold-start invocations emit
nothing. -/
theorem estimate_velocity_emits_when_full (fit : List ℚ → List ℚ → ℚ)
    (s : ControlNodeState) (h : (0 : ℚ) ∉ s.t_hs) :
    (compute_q_d fit s).2 = some (compute_q_d fit s).1 := by
  simp [compute_q_d, h]

/-- Witness for the amended C8 on a fully populated buffer. -/
theorem estimate_velocity_emits_when_full_witness :
    (compute_q_d (fun _ _ => 2)
        { initControlNode 0 with t_hs := List.replicate 16 1 }).2 =
      some (compute_q_d (fun _ _ => 2)
        { initControlNode 0 with t_hs := List.replicate 16 1 }).1 :=
  estimate_velocity_emits_when_full (fun _ _ => 2)
    { initControlNode 0 with t_hs := List.replicate 16 1 } (by decide)

/-- C9: the setpoint re-publication step of the control cycle publishes the
held setpoint with only the timestamp refreshed: all content fields of the
published message equal those of the held setpoint, and the held setpoint
itself is unchanged by the cycle. -/
theorem setpoint_republication_content_unchanged (fit : List ℚ → List ℚ → ℚ)
    (control_fn : ℚ → Vec3 → Vec3 → Phi → CtrlState → ℚ × ℚ → Vec3 → Phi →
      Phi × CtrlState)
    (saturate : Phi → CtrlState → Phi × CtrlState)
    (hp : Handedness) (ma : MotorAngles) (t now : ℚ) (s : ControlNodeState) :
    (call_controller fit control_fn saturate hp ma t now s).2.setpoint_repub.stamp
        = now ∧
    (call_controller fit control_fn saturate hp ma t now s).2.setpoint_repub.q_des
        = s.setpoint_msg.q_des ∧
    (call_controller fit control_fn saturate hp ma t now s).2.setpoint_repub.chiee_des
        = s.setpoint_msg.chiee_des ∧
    (call_controller fit control_fn saturate hp ma t now s).2.setpoint_repub.phi_ss
        = s.setpoint_msg.phi_ss ∧
    (call_controller fit control_fn saturate hp ma t now
        s).2.setpoint_repub.optimality_error = s.setpoint_msg.optimality_error ∧
    (call_controller fit control_fn saturate hp ma t now s).1.setpoint_msg
        = s.setpoint_msg :=
  ⟨rfl, rfl, rfl, rfl, rfl, rfl⟩

/-- C6: in every control cycle, the published unsaturated command is the
elementwise product of the fixed handedness signs with the controller output
phi_des; the saturator is applied to exactly that handedness-corrected
command (with the controller-updated state); and the issued motor command is
the actuation-to-motor map applied to the saturated value. -/
theorem control_cycle_command_pipeline (fit : List ℚ → List ℚ → ℚ)
    (control_fn : ℚ → Vec3 → Vec3 → Phi → CtrlState → ℚ × ℚ → Vec3 → Phi →
      Phi × CtrlState)
    (saturate : Phi → CtrlState → Phi × CtrlState)
    (hp : Handedness) (ma : MotorAngles) (t now : ℚ) (s : ControlNodeState) :
    (call_controller fit control_fn saturate hp ma t now s).2.unsaturated =
      (hp.ch0 * (control_fn t s.q (compute_q_d fit s).1
          (map_motor_angles_to_actuation_coordinates hp ma) s.controller_state
          (s.chiee_des.1, s.chiee_des.2.1) s.q_des s.phi_ss).1.1,
       hp.ch1 * (control_fn t s.q (compute_q_d fit s).1
          (map_motor_angles_to_actuation_coordinates hp ma) s.controller_state
          (s.chiee_des.1, s.chiee_des.2.1) s.q_des s.phi_ss).1.2) ∧
    (call_controller fit control_fn saturate hp ma t now s).2.saturated =
      (saturate (call_controller fit control_fn saturate hp ma t now s).2.unsaturated
        (control_fn t s.q (compute_q_d fit s).1
          (map_motor_angles_to_actuation_coordinates hp ma) s.controller_state
          (s.chiee_des.1, s.chiee_des.2.1) s.q_des s.phi_ss).2).1 ∧
    (call_controller fit control_fn saturate hp ma t now s).2.motor_goal =
      map_actuation_coordinates_to_motor_angles hp
        (call_controller fit control_fn saturate hp ma t now s).2.saturated :=
  ⟨rfl, rfl, rfl⟩

/-- Pushing into a nonempty ring buffer (roll by one slot, overwrite the
last entry) drops the oldest entry and appends the new one at the end. -/
lemma shiftAppend_eq_drop_append {α : Type} (b : List α) (x : α) (hb : b ≠ []) :
    shiftAppend b x = b.drop 1 ++ [x] := by
  cases b with
  | nil => exact absurd rfl hb
  | cons a l => simp [shiftAppend, set_last, jnp_roll_neg1]

/-- Folding ring-buffer pushes over a nonempty buffer keeps the suffix of
the concatenation of the old contents and the pushed values. -/
lemma foldl_shiftAppend_eq {α : Type} (xs : List α) (b : List α) (hb : b ≠ []) :
    List.foldl shiftAppend b xs = (b ++ xs).drop xs.length := by
  induction xs generalizing b with
  | nil => simp
  | cons x xs ih =>
    cases b with
    | nil => exact absurd rfl hb
    | cons a l =>
      rw [List.foldl_cons, shiftAppend_eq_drop_append _ _ (by simp)]
      rw [ih _ (by simp)]
      simp [List.append_assoc]

/-- The timestamp buffer after a sequence of configuration callbacks is the
fold of ring-buffer pushes of the message timestamps. -/
lemma run_config_callbacks_t_hs (ms : List (ℚ × Vec3)) (s : ControlNodeState) :
    (run_config_callbacks s ms).t_hs =
      List.foldl shiftAppend s.t_hs (ms.map Prod.fst) := by
  induction ms generalizing s with
  | nil => rfl
  | cons m ms ih =>
    rw [run_config_callbacks, List.foldl_cons, List.map_cons, List.foldl_cons]
    exact ih (configuration_listener_callback s m.1 m.2)

/-- The populated tail of the buffer after pushing xs into a buffer b is the
corresponding tail of xs. -/
lemma drop_populated {α : Type} (b xs : List α) :
    ((b ++ xs).drop xs.length).drop (b.length - min xs.length b.length) =
      xs.drop (xs.length - min xs.length b.length) := by
  rcases le_total xs.length b.length with h | h
  · rw [min_eq_left h, List.drop_drop]
    have h2 : xs.length + (b.length - xs.length) = b.length := by omega
    rw [h2, List.drop_left]
    simp
  · rw [min_eq_right h]
    simp only [Nat.sub_self, List.drop_zero]
    rw [List.drop_append_eq_append_drop]
    rw [List.drop_eq_nil_of_le h]
    simp

/-- A tail of a sorted list is sorted. -/
lemma sorted_drop {xs : List ℚ} (hs : xs.Sorted (· ≤ ·)) (n : ℕ) :
    (xs.drop n).Sorted (· ≤ ·) :=
  hs.sublist (List.drop_sublist n xs)

/-- C7: each measurement arrival transforms the history buffers by dropping
the oldest entry and appending the new (timestamp, configuration) pair at
the end; consequently, after any sequence of measurement callbacks with
non-decreasing timestamps, the populated entries of the timestamp buffer
(its last min(number of callbacks, capacity) slots) are monotonically
non-decreasing. -/
theorem history_buffer_shift_and_monotone (s s0 : ControlNodeState)
    (t : ℚ) (q : Vec3) (ms : List (ℚ × Vec3))
    (ht : s.t_hs ≠ []) (hq : s.q_hs ≠ []) (h0 : s0.t_hs ≠ [])
    (hsorted : (ms.map Prod.fst).Sorted (· ≤ ·)) :
    ((configuration_listener_callback s t q).t_hs = s.t_hs.drop 1 ++ [t] ∧
     (configuration_listener_callback s t q).q_hs = s.q_hs.drop 1 ++ [q]) ∧
    ((run_config_callbacks s0 ms).t_hs.drop
        (s0.t_hs.length - min ms.length s0.t_hs.length)).Sorted (· ≤ ·) := by
  refine ⟨⟨shiftAppend_eq_drop_append _ _ ht, shiftAppend_eq_drop_append _ _ hq⟩, ?_⟩
  rw [run_config_callbacks_t_hs, foldl_shiftAppend_eq _ _ h0]
  rw [show ms.length = (ms.map Prod.fst).length from (List.length_map _ _).symm]
  rw [drop_populated]
  exact sorted_drop hsorted _

/-- Witness for C7 with a capacity-2 buffer and three sorted arrivals. -/
theorem history_buffer_shift_and_monotone_witness :
    ((configuration_listener_callback
        { initControlNode 0 with t_hs := [0, 0], q_hs := [(0, 0, 0), (0, 0, 0)] }
        5 (1, 2, 3)).t_hs = [0, 5] ∧
     (configuration_listener_callback
        { initControlNode 0 with t_hs := [0, 0], q_hs := [(0, 0, 0), (0, 0, 0)] }
        5 (1, 2, 3)).q_hs = [(0, 0, 0), (1, 2, 3)]) ∧
    ((run_config_callbacks
        { initControlNode 0 with t_hs := [0, 0], q_hs := [(0, 0, 0), (0, 0, 0)] }
        [(1, (1, 1, 1)), (2, (2, 2, 2)), (3, (3, 3, 3))]).t_hs.drop 0).Sorted
      (· ≤ ·) := by
  have h := history_buffer_shift_and_monotone
    { initControlNode 0 with t_hs := [0, 0], q_hs := [(0, 0, 0), (0, 0, 0)] }
    { initControlNode 0 with t_hs := [0, 0], q_hs := [(0, 0, 0), (0, 0, 0)] }
    5 (1, 2, 3) [(1, (1, 1, 1)), (2, (2, 2, 2)), (3, (3, 3, 3))]
    (by simp) (by simp) (by simp)
    (by simp [List.Sorted]; norm_num)
  simpa using h

/-- Fields of the node state that only a setpoint arrival can change are
preserved by any sequence of setpoint-free events. -/
lemma target_fields_preserved (fit : List ℚ → List ℚ → ℚ)
    (cf : ℚ → Vec3 → Vec3 → Phi → CtrlState → ℚ × ℚ → Vec3 → Phi →
      Phi × CtrlState)
    (sat : Phi → CtrlState → Phi × CtrlState) (hp : Handedness)
    (evs : List NodeEvent) :
    ∀ s : ControlNodeState, (∀ e ∈ evs, e.isSetpointArrival = false) →
      (runEvents fit cf sat hp s evs).q_des = s.q_des ∧
      (runEvents fit cf sat hp s evs).chiee_des = s.chiee_des ∧
      (runEvents fit cf sat hp s evs).phi_ss = s.phi_ss ∧
      (runEvents fit cf sat hp s evs).setpoint_msg = s.setpoint_msg := by
  induction evs with
  | nil => exact fun s _ => ⟨rfl, rfl, rfl, rfl⟩
  | cons e evs ih =>
    intro s h
    have he := h e (List.mem_cons_self _ _)
    have h' : ∀ e' ∈ evs, e'.isSetpointArrival = false :=
      fun e' he' => h e' (List.mem_cons_of_mem _ he')
    cases e with
    | config t q =>
      obtain ⟨h1, h2, h3, h4⟩ := ih (configuration_listener_callback s t q) h'
      exact ⟨h1.trans rfl, h2.trans rfl, h3.trans rfl, h4.trans rfl⟩
    | setpoint m => simp [NodeEvent.isSetpointArrival] at he
    | cycle ma t now =>
      obtain ⟨h1, h2, h3, h4⟩ :=
        ih (call_controller fit cf sat hp ma t now s).1 h'
      exact ⟨h1.trans rfl, h2.trans rfl, h3.trans rfl, h4.trans rfl⟩

/-- C10: before any setpoint message has been received, the held desired
state is exactly the slightly elongated configuration (0, 0, 0.04), zero
desired end-effector pose, zero steady-state actuation, and optimality
error 0; and every control cycle run from such a state hands exactly this
target to the controller. -/
theorem initial_target_until_first_setpoint (fit : List ℚ → List ℚ → ℚ)
    (cf : ℚ → Vec3 → Vec3 → Phi → CtrlState → ℚ × ℚ → Vec3 → Phi →
      Phi × CtrlState)
    (sat : Phi → CtrlState → Phi × CtrlState) (hp : Handedness) (t0 : ℚ)
    (evs : List NodeEvent)
    (h : ∀ e ∈ evs, e.isSetpointArrival = false) :
    (runEvents fit cf sat hp (initControlNode t0) evs).q_des = (0, 0, 0.04) ∧
    (runEvents fit cf sat hp (initControlNode t0) evs).chiee_des = (0, 0, 0) ∧
    (runEvents fit cf sat hp (initControlNode t0) evs).phi_ss = (0, 0) ∧
    (runEvents fit cf sat hp
        (initControlNode t0) evs).setpoint_msg.optimality_error = 0 ∧
    ∀ (ma : MotorAngles) (t now : ℚ),
      (call_controller fit cf sat hp ma t now
          (runEvents fit cf sat hp (initControlNode t0) evs)).2.target_used
        = ((0, 0), (0, 0, 0.04), (0, 0)) := by
  obtain ⟨h1, h2, h3, h4⟩ :=
    target_fields_preserved fit cf sat hp evs (initControlNode t0) h
  refine ⟨h1, h2, h3, by rw [h4]; rfl, ?_⟩
  intro ma t now
  have htu : (call_controller fit cf sat hp ma t now
      (runEvents fit cf sat hp (initControlNode t0) evs)).2.target_used
      = (((runEvents fit cf sat hp (initControlNode t0) evs).chiee_des.1,
          (runEvents fit cf sat hp (initControlNode t0) evs).chiee_des.2.1),
         (runEvents fit cf sat hp (initControlNode t0) evs).q_des,
         (runEvents fit cf sat hp (initControlNode t0) evs).phi_ss) := rfl
  rw [htu, h1, h2, h3]
  rfl

/-- Witness for C10 after one measurement and one control cycle. -/
theorem initial_target_until_first_setpoint_witness :
    (runEvents (fun _ _ => 0) (fun _ _ _ _ cs _ _ _ => ((0, 0), cs))
        (fun p cs => (p, cs)) ⟨1, 1, 1, 1, 1, 1⟩ (initControlNode 0)
        [NodeEvent.config 1 (1, 1, 1),
         NodeEvent.cycle ⟨0, 0, 0, 0⟩ 2 3]).q_des = (0, 0, 0.04) ∧
    (call_controller (fun _ _ => 0) (fun _ _ _ _ cs _ _ _ => ((0, 0), cs))
        (fun p cs => (p, cs)) ⟨1, 1, 1, 1, 1, 1⟩ ⟨1, 1, 1, 1⟩ 4 5
        (runEvents (fun _ _ => 0) (fun _ _ _ _ cs _ _ _ => ((0, 0), cs))
          (fun p cs => (p, cs)) ⟨1, 1, 1, 1, 1, 1⟩ (initControlNode 0)
          [NodeEvent.config 1 (1, 1, 1),
           NodeEvent.cycle ⟨0, 0, 0, 0⟩ 2 3])).2.target_used
      = ((0, 0), (0, 0, 0.04), (0, 0)) := by
  have h := initial_target_until_first_setpoint (fun _ _ => 0)
    (fun _ _ _ _ cs _ _ _ => ((0, 0), cs)) (fun p cs => (p, cs))
    ⟨1, 1, 1, 1, 1, 1⟩ 0
    [NodeEvent.config 1 (1, 1, 1), NodeEvent.cycle ⟨0, 0, 0, 0⟩ 2 3]
    (by simp [NodeEvent.isSetpointArrival])
  exact ⟨h.1, h.2.2.2.2 ⟨1, 1, 1, 1⟩ 4 5⟩

/-- C5: every unknown value of an enumerated selection makes node
initialization return the corresponding descriptive error: an unknown
controller type aborts the control node constructor before its control
timer is created, and an unknown HSA material, setpoint mode or image type
aborts the planning node constructor before its planning timer is created;
no silent defaulting occurs. -/
theorem unknown_enumeration_fails_startup
    (gen_traj : String → ℚ × ℚ → ℚ → List (ℚ × ℚ))
    (ct mat mat' mode img : String)
    (hct : ct ∉ controller_types)
    (hmat : mat ∉ ["fpu", "epu"])
    (hmat' : mat' ∈ ["fpu", "epu"])
    (hmode : mode ∉ ["manual", "image"])
    (himg : img ∉ ["star", "tud-flame", "mit-csail"]) :
    select_controller ct =
      Except.error ("Controller type " ++ ct ++ " not implemented") ∧
    init_planning_node gen_traj mat mode img =
      Except.error ("Unknown HSA material: " ++ mat) ∧
    init_planning_node gen_traj mat' mode img =
      Except.error ("Unknown setpoint mode: " ++ mode) ∧
    init_planning_node gen_traj mat' "image" img =
      Except.error ("Unknown image type: " ++ img) := by
  simp only [controller_types, List.mem_cons, List.mem_singleton, not_or]
    at hct hmat hmode himg
  obtain ⟨n1, n2, n3, n4, -⟩ := hct
  obtain ⟨m1, m2, -⟩ := hmat
  obtain ⟨d1, d2, -⟩ := hmode
  obtain ⟨i1, i2, i3, -⟩ := himg
  refine ⟨?_, ?_, ?_, ?_⟩
  · rw [select_controller, if_neg n1, if_neg n2, if_neg n3, if_neg n4]
  · rw [init_planning_node, if_neg (by exact not_or.mpr ⟨m1, m2⟩)]
  · simp only [List.mem_cons, List.mem_singleton] at hmat'
    rcases hmat' with rfl | hmat'
    · rw [init_planning_node, if_pos (Or.inl rfl), if_neg d1, if_neg d2]
    · rcases hmat' with rfl | hmat'
      · rw [init_planning_node, if_pos (Or.inr rfl), if_neg d1, if_neg d2]
      · simp at hmat'
  · simp only [List.mem_cons, List.mem_singleton] at hmat'
    rcases hmat' with rfl | hmat'
    · rw [init_planning_node, if_pos (Or.inl rfl),
        if_neg (by decide), if_pos rfl, if_neg i1, if_neg i2, if_neg i3]
    · rcases hmat' with rfl | hmat'
      · rw [init_planning_node, if_pos (Or.inr rfl),
          if_neg (by decide), if_pos rfl, if_neg i1, if_neg i2, if_neg i3]
      · simp at hmat'

/-- Witness for C5 at concrete unknown selection strings. -/
theorem unknown_enumeration_fails_startup_witness :
    select_controller "foo" =
      Except.error ("Controller type " ++ "foo" ++ " not implemented") ∧
    init_planning_node (fun _ _ _ => []) "bar" "baz" "qux" =
      Except.error ("Unknown HSA material: " ++ "bar") ∧
    init_planning_node (fun _ _ _ => []) "fpu" "baz" "qux" =
      Except.error ("Unknown setpoint mode: " ++ "baz") ∧
    init_planning_node (fun _ _ _ => []) "fpu" "image" "qux" =
      Except.error ("Unknown image type: " ++ "qux") :=
  unknown_enumeration_fails_startup (fun _ _ _ => []) "foo" "bar" "fpu"
    "baz" "qux" (by decide) (by decide) (by decide) (by decide) (by decide)

end HsaPlanarControl
